import Mathlib

/-!
Shallow embedding of the SonIA core anomaly-detection engine:
`modules/anomaly_detector.py` (detector, date parsing, business-day
counting), `modules/fedex_tracker.py` (status normalizer
`get_sonia_status`) and `modules/excel_generator.py` (`_business_days`).

Dates are modelled by their proleptic-Gregorian ordinal (Python
`date.toordinal`): ordinal 1 is 0001-01-01, a Monday, so
`weekday d = (d + 6) % 7` matches Python `date.weekday` (Monday = 0).
Timezones are modelled as whole-hour offsets (`COT = -5`).
-/

namespace Sonia

/-- Python `date.weekday()`: Monday = 0 … Sunday = 6, for a day ordinal. -/
def weekday (d : Nat) : Nat := (d + 6) % 7

def isLeapYear (y : Nat) : Bool := y % 4 == 0 && (y % 100 != 0 || y % 400 == 0)

def daysInMonth (y m : Nat) : Nat :=
  if m == 2 then (if isLeapYear y then 29 else 28)
  else if m == 4 || m == 6 || m == 9 || m == 11 then 30
  else 31

/-- Days in the months of year `y` strictly before month `m`. -/
def daysBeforeMonth (y m : Nat) : Nat :=
  (List.range (m - 1)).foldl (fun acc i => acc + daysInMonth y (i + 1)) 0

/-- Python `date(y, m, d).toordinal()` (proleptic Gregorian, 0001-01-01 = 1). -/
def toOrdinal (y m d : Nat) : Nat :=
  365 * (y - 1) + (y - 1) / 4 - (y - 1) / 100 + (y - 1) / 400 + daysBeforeMonth y m + d

/-- `AnomalyDetector._count_business_days` core loop on day ordinals:
`current = start; while current < end: if current.weekday() < 5: count += 1; current += 1`.
Counts Monday–Friday days in `[s, e)` (start included, end excluded). -/
def countBusinessDays (s e : Nat) : Nat :=
  (List.range (e - s)).countP (fun i => weekday (s + i) < 5)

/-- `ExcelGenerator._business_days`: `if not start or not end: return 0`, then
`current = start; while current < end: current += 1; if current.weekday() < 5: days += 1`.
Counts Monday–Friday days in `(s, e]` (start excluded, end included). -/
def excelBusinessDays (start stop : Option Nat) : Nat :=
  match start, stop with
  | some s, some e => (List.range (e - s)).countP (fun i => weekday (s + 1 + i) < 5)
  | _, _ => 0

/-- The spec's stated business-day count: calendar days strictly after `s`,
up to and including `e`, whose weekday is Monday–Friday. -/
def specBusinessDays (s e : Nat) : Nat :=
  ((List.range' (s + 1) (e - s)).filter (fun d => weekday d < 5)).length

/-- Python timezone-aware-or-naive `datetime`; `tz` is the UTC offset in
whole hours (`some (-5)` is the module constant `COT`), `none` is naive. -/
structure PyDateTime where
  year : Nat
  month : Nat
  day : Nat
  hour : Nat := 0
  minute : Nat := 0
  second : Nat := 0
  microsecond : Nat := 0
  tz : Option Int := none
deriving DecidableEq, Repr

/-- Python `datetime.date().toordinal()` of a datetime. -/
def PyDateTime.dateOrd (d : PyDateTime) : Nat := toOrdinal d.year d.month d.day

/-- Microseconds since the epoch of ordinal 0, shifted to UTC by the
offset (naive values are taken at offset 0; in the detector every
datetime that reaches a subtraction is aware). -/
def PyDateTime.utcMicro (d : PyDateTime) : Int :=
  (((d.dateOrd * 86400 + d.hour * 3600 + d.minute * 60 + d.second : Nat) : Int) * 1000000
    + (d.microsecond : Int)) - (d.tz.getD 0) * 3600 * 1000000

/-- Python `(a - b).days`: `timedelta` normalizes with floor division. -/
def deltaDays (a b : PyDateTime) : Int :=
  Int.fdiv (a.utcMicro - b.utcMicro) (86400 * 1000000)

/-- A value found in a shipment date field: a `datetime` or a string
(Python also tolerates other types, which parse to `None` like `none`). -/
inductive DateVal where
  | dt (d : PyDateTime)
  | str (s : String)
deriving DecidableEq, Repr

def digitVal (c : Char) : Nat := c.toNat - 48

/-- `strptime` `%Y`: exactly four digits. -/
def parseYear4 : List Char → Option (Nat × List Char)
  | a :: b :: c :: d :: rest =>
    if a.isDigit ∧ b.isDigit ∧ c.isDigit ∧ d.isDigit then
      some (1000 * digitVal a + 100 * digitVal b + 10 * digitVal c + digitVal d, rest)
    else none
  | _ => none

/-- CPython `strptime` two-digit-preferring numeric field (the regexes for
`%m`, `%d`, `%H`, `%M`, `%S`): two digits whose value lies in `[lo2, hi2]`,
else a single digit of value at least `lo1`. -/
def parseNum2 (lo2 hi2 lo1 : Nat) : List Char → Option (Nat × List Char)
  | a :: b :: rest =>
    if a.isDigit ∧ b.isDigit ∧ lo2 ≤ 10 * digitVal a + digitVal b ∧
        10 * digitVal a + digitVal b ≤ hi2 then
      some (10 * digitVal a + digitVal b, rest)
    else if a.isDigit ∧ lo1 ≤ digitVal a then some (digitVal a, b :: rest)
    else none
  | [a] => if a.isDigit ∧ lo1 ≤ digitVal a then some (digitVal a, []) else none
  | [] => none

/-- `strptime` `%f`: one to six digits, right-padded with zeros to microseconds. -/
def parseMicro (cs : List Char) : Option (Nat × List Char) :=
  let ds := (cs.takeWhile Char.isDigit).take 6
  if ds.length = 0 then none
  else some (ds.foldl (fun a c => 10 * a + digitVal c) 0 * 10 ^ (6 - ds.length),
    cs.drop ds.length)

def expectChar (c : Char) : List Char → Option (List Char)
  | x :: rest => if x = c then some rest else none
  | [] => none

def parseYmd (cs : List Char) : Option (Nat × Nat × Nat × List Char) := do
  let (y, cs) ← parseYear4 cs
  let cs ← expectChar '-' cs
  let (m, cs) ← parseNum2 1 12 1 cs
  let cs ← expectChar '-' cs
  let (d, cs) ← parseNum2 1 31 1 cs
  return (y, m, d, cs)

def parseHms (cs : List Char) : Option (Nat × Nat × Nat × List Char) := do
  let (h, cs) ← parseNum2 0 23 0 cs
  let cs ← expectChar ':' cs
  let (mi, cs) ← parseNum2 0 59 0 cs
  let cs ← expectChar ':' cs
  let (s, cs) ← parseNum2 0 59 0 cs
  return (h, mi, s, cs)

/-- The `datetime(...)` constructor call at the end of `strptime`: field
ranges are re-checked and a `ValueError` (here `none`) falls through to the
next format in `_parse_date`. -/
def mkValid (y m d h mi s us : Nat) : Option PyDateTime :=
  if 1 ≤ y ∧ 1 ≤ m ∧ m ≤ 12 ∧ 1 ≤ d ∧ d ≤ daysInMonth y m then
    some ⟨y, m, d, h, mi, s, us, none⟩
  else none

/-- `strptime(s, "%Y-%m-%d")`. -/
def strptimeYmd (str : String) : Option PyDateTime := do
  let (y, m, d, rest) ← parseYmd str.toList
  if rest = [] then mkValid y m d 0 0 0 0 else none

/-- `strptime(s, "%Y-%m-%dT%H:%M:%S")`. -/
def strptimeYmdHms (str : String) : Option PyDateTime := do
  let (y, m, d, cs) ← parseYmd str.toList
  let cs ← expectChar 'T' cs
  let (h, mi, s, rest) ← parseHms cs
  if rest = [] then mkValid y m d h mi s 0 else none

/-- `strptime(s, "%Y-%m-%dT%H:%M:%S.%fZ")`. -/
def strptimeYmdHmsFZ (str : String) : Option PyDateTime := do
  let (y, m, d, cs) ← parseYmd str.toList
  let cs ← expectChar 'T' cs
  let (h, mi, s, cs) ← parseHms cs
  let cs ← expectChar '.' cs
  let (us, cs) ← parseMicro cs
  let rest ← expectChar 'Z' cs
  if rest = [] then mkValid y m d h mi s us else none

/-- `strptime(s, "%Y-%m-%dT%H:%M:%SZ")`. -/
def strptimeYmdHmsZ (str : String) : Option PyDateTime := do
  let (y, m, d, cs) ← parseYmd str.toList
  let cs ← expectChar 'T' cs
  let (h, mi, s, cs) ← parseHms cs
  let rest ← expectChar 'Z' cs
  if rest = [] then mkValid y m d h mi s 0 else none

/-- `AnomalyDetector._parse_date`: falsy values give `None`; a naive
`datetime` gets `tzinfo=COT`; a string is tried against the four formats in
order and any successful parse gets `tzinfo=COT`; anything else is `None`. -/
def parse_date : Option DateVal → Option PyDateTime
  | none => none
  | some (.dt d) => if d.tz = none then some { d with tz := some (-5) } else some d
  | some (.str s) =>
    if s = "" then none
    else
      match strptimeYmd s with
      | some dt => some { dt with tz := some (-5) }
      | none =>
        match strptimeYmdHms s with
        | some dt => some { dt with tz := some (-5) }
        | none =>
          match strptimeYmdHmsFZ s with
          | some dt => some { dt with tz := some (-5) }
          | none =>
            match strptimeYmdHmsZ s with
            | some dt => some { dt with tz := some (-5) }
            | none => none

/-- `AnomalyDetector._count_business_days` (the tz-fixup line does not
change `.date()`, and both arguments here are datetimes). -/
def count_business_days (start stop : PyDateTime) : Nat :=
  countBusinessDays start.dateOrd stop.dateOrd

/-- The shipment dict fields `check_shipment`/`check_all_shipments` read;
`none` stands for an absent key or a `None` value. `is_delivered` models
the truthiness test on `shipment.get("is_delivered")`. -/
structure Shipment where
  tracking_number : Option String := none
  sonia_status : Option String := none
  is_delivered : Bool := false
  fedex_status : Option String := none
  ship_date : Option DateVal := none
  last_status_change : Option DateVal := none
  label_creation_date : Option DateVal := none
  client_id : Option Nat := none
  client_name : Option String := none
  id : Option Nat := none
deriving DecidableEq, Repr

/-- The threshold dict; field defaults are the `__init__` defaults, which
also back every `self.thresholds.get(key, default)` lookup. -/
structure Thresholds where
  transit_days : Nat := 7
  customs_days : Nat := 5
  delivery_attempt_days : Nat := 2
  label_no_movement_days : Nat := 5
deriving DecidableEq, Repr

structure Anomaly where
  rule : String
  tracking_number : String
  claim_type : String
  description : String
  severity : String
  client_id : Option Nat := none
  client_name : String := ""
  shipment_id : Option Nat := none
deriving DecidableEq, Repr

def lowerChar (c : Char) : Char :=
  if 65 ≤ c.toNat ∧ c.toNat ≤ 90 then Char.ofNat (c.toNat + 32) else c

def upperChar (c : Char) : Char :=
  if 97 ≤ c.toNat ∧ c.toNat ≤ 122 then Char.ofNat (c.toNat - 32) else c

/-- Python `str.lower()` (ASCII range; every string these claims touch is
ASCII). -/
def pyLower (s : String) : String := String.mk (s.toList.map lowerChar)

/-- Python `str.upper()` (ASCII range). -/
def pyUpper (s : String) : String := String.mk (s.toList.map upperChar)

/-- Python `x or dflt` on an optional string (`None` and `""` are falsy). -/
def pyOr (v : Option String) (dflt : String) : String :=
  match v with
  | some s => if s = "" then dflt else s
  | none => dflt

/-- `(shipment.get("sonia_status") or "unknown").lower()`. -/
def statusOf (s : Shipment) : String := pyLower (pyOr s.sonia_status "unknown")

def padNum (w n : Nat) : String :=
  let s := toString n
  String.mk (List.replicate (w - s.length) '0') ++ s

/-- Python `dt.strftime("%Y-%m-%d")`. -/
def strftimeYmd (d : PyDateTime) : String :=
  padNum 4 d.year ++ "-" ++ padNum 2 d.month ++ "-" ++ padNum 2 d.day

def ruleExceptionSeg (status tracking fedex : String) : List Anomaly :=
  if status = "exception" then
    [{ rule := "exception_detected", tracking_number := tracking, claim_type := "otro",
       description := "FedEx reportó una excepción de entrega. Estado: " ++ fedex,
       severity := "high" }]
  else []

def ruleTransitSeg (now : PyDateTime) (th : Thresholds) (status tracking : String)
    (ship_date : Option DateVal) : List Anomaly :=
  if status = "in_transit" then
    match parse_date ship_date with
    | some sd =>
      let business_days := count_business_days sd now
      let threshold := th.transit_days
      if business_days > threshold then
        [{ rule := "transit_too_long", tracking_number := tracking,
           claim_type := "entrega_tardia",
           description := "Paquete en tránsito por " ++ toString business_days ++
             " días hábiles (umbral: " ++ toString threshold ++ "). Enviado: " ++
             strftimeYmd sd,
           severity := "medium" }]
      else []
    | none => []
  else []

def ruleReturnedSeg (status tracking fedex : String) : List Anomaly :=
  if status = "returned_to_sender" then
    [{ rule := "returned_to_sender", tracking_number := tracking,
       claim_type := "no_entregado",
       description := "Paquete devuelto a origen. Estado FedEx: " ++ fedex,
       severity := "high" }]
  else []

def ruleAttemptSeg (now : PyDateTime) (th : Thresholds) (status tracking : String)
    (last_status_change : Option DateVal) : List Anomaly :=
  if status = "delivery_attempted" then
    match parse_date last_status_change with
    | some last_change =>
      let days_stuck := deltaDays now last_change
      let threshold := th.delivery_attempt_days
      if days_stuck > (threshold : Int) then
        [{ rule := "delivery_attempted_stuck", tracking_number := tracking,
           claim_type := "no_entregado",
           description := "Intento de entrega sin éxito por " ++ toString days_stuck ++
             " días (umbral: " ++ toString threshold ++ ")",
           severity := "medium" }]
      else []
    | none => []
  else []

def ruleCustomsSeg (now : PyDateTime) (th : Thresholds) (status tracking : String)
    (last_status_change : Option DateVal) : List Anomaly :=
  if status = "in_customs" then
    match parse_date last_status_change with
    | some last_change =>
      let business_days := count_business_days last_change now
      let threshold := th.customs_days
      if business_days > threshold then
        [{ rule := "customs_too_long", tracking_number := tracking,
           claim_type := "entrega_tardia",
           description := "Paquete en aduanas por " ++ toString business_days ++
             " días hábiles (umbral: " ++ toString threshold ++ ")",
           severity := "medium" }]
      else []
    | none => []
  else []

def ruleLabelSeg (now : PyDateTime) (th : Thresholds) (status tracking : String)
    (label_creation_date : Option DateVal) : List Anomaly :=
  if status = "label_created" then
    match parse_date label_creation_date with
    | some label_date =>
      let days_since := deltaDays now label_date
      let threshold := th.label_no_movement_days
      if days_since > (threshold : Int) then
        [{ rule := "label_no_movement", tracking_number := tracking,
           claim_type := "otro",
           description := "Label creada hace " ++ toString days_since ++
             " días sin movimiento (umbral: " ++ toString threshold ++ "). Label: " ++
             strftimeYmd label_date,
           severity := "low" }]
      else []
    | none => []
  else []

/-- `AnomalyDetector.check_shipment`: the delivered gate, then the six rule
blocks appending to `anomalies` in source order. `now` stands for the
`datetime.now(COT)` read. -/
def check_shipment (now : PyDateTime) (th : Thresholds) (s : Shipment) : List Anomaly :=
  let status := statusOf s
  let tracking := s.tracking_number.getD "N/A"
  if status = "delivered" ∨ s.is_delivered then []
  else
    ruleExceptionSeg status tracking (s.fedex_status.getD "N/A")
    ++ ruleTransitSeg now th status tracking s.ship_date
    ++ ruleReturnedSeg status tracking (s.fedex_status.getD "N/A")
    ++ ruleAttemptSeg now th status tracking s.last_status_change
    ++ ruleCustomsSeg now th status tracking s.last_status_change
    ++ ruleLabelSeg now th status tracking s.label_creation_date

/-- The enrichment loop body in `check_all_shipments`: each anomaly gets the
shipment's `client_id`, `client_name` (default `""`) and `id`. -/
def enrich (s : Shipment) (a : Anomaly) : Anomaly :=
  { a with
    client_id := s.client_id
    client_name := s.client_name.getD ""
    shipment_id := s.id }

/-- `AnomalyDetector.check_all_shipments`: per-shipment check, in-place
enrichment, `extend` onto the accumulator (the logging block does not touch
the return value). -/
def check_all_shipments (now : PyDateTime) (th : Thresholds) : List Shipment → List Anomaly
  | [] => []
  | s :: rest => ((check_shipment now th s).map (enrich s)) ++ check_all_shipments now th rest

def startsWithChars : List Char → List Char → Bool
  | [], _ => true
  | _ :: _, [] => false
  | a :: as, b :: bs => a = b && startsWithChars as bs

def containsChars (needle : List Char) : List Char → Bool
  | [] => startsWithChars needle []
  | c :: rest => startsWithChars needle (c :: rest) || containsChars needle rest

/-- Python `needle in hay` on strings. -/
def containsSub (needle hay : String) : Bool := containsChars needle.toList hay.toList

def anyTerm (terms : List String) (hay : String) : Bool :=
  terms.any (fun t => containsSub t hay)

/-- `fedex_tracker.get_sonia_status`: description keyword groups first, in
source order, then the status-code table, then `"unknown"`. -/
def get_sonia_status (status_code : String) (description : String) : String :=
  let desc_lower := if description = "" then "" else pyLower description
  if anyTerm ["shipment information sent", "label created", "shipping label"] desc_lower then
    "label_created"
  else if containsSub "delivered" desc_lower then "delivered"
  else if anyTerm ["out for delivery", "on fedex vehicle for delivery"] desc_lower then
    "out_for_delivery"
  else if anyTerm ["picked up", "package received"] desc_lower then "picked_up"
  else if anyTerm ["in transit", "departed", "arrived", "left fedex", "at fedex",
      "on the way", "at destination sort", "at local fedex", "in fedex",
      "international shipment release"] desc_lower then "in_transit"
  else if anyTerm ["clearance", "customs", "import", "broker"] desc_lower then "in_customs"
  else if containsSub "exception" desc_lower then "exception"
  else if containsSub "delay" desc_lower then "delayed"
  else if containsSub "hold" desc_lower then "on_hold"
  else if anyTerm ["delivery attempt", "unable to deliver"] desc_lower then
    "delivery_attempted"
  else if containsSub "return" desc_lower then "returned_to_sender"
  else if containsSub "cancel" desc_lower then "cancelled"
  else
    let code_upper := if status_code = "" then "" else pyUpper status_code
    if code_upper = "DL" then "delivered"
    else if code_upper = "OD" then "out_for_delivery"
    else if code_upper = "PU" then "picked_up"
    else if ["IT", "AA", "AR", "DP", "AF", "PM"].contains code_upper then "in_transit"
    else if ["DE", "SE", "OC"].contains code_upper then "exception"
    else if code_upper = "HL" then "on_hold"
    else if code_upper = "RS" then "returned_to_sender"
    else if code_upper = "CA" then "cancelled"
    else if code_upper = "CD" then "in_customs"
    else if ["IN", "SP", "PL"].contains code_upper then "label_created"
    else "unknown"

/-- The docstring's closed enum of SonIA statuses. -/
def soniaStatuses : List String :=
  ["label_created", "picked_up", "in_transit", "in_customs", "out_for_delivery",
   "delivered", "exception", "delayed", "on_hold", "delivery_attempted",
   "returned_to_sender", "cancelled", "unknown"]

/-- Modelled from the spec: the ordered description keyword groups of §4.1,
as (target status, vendor phrases) pairs, in the stated priority sequence. -/
def keywordGroups : List (String × List String) :=
  [("label_created", ["shipment information sent", "label created", "shipping label"]),
   ("delivered", ["delivered"]),
   ("out_for_delivery", ["out for delivery", "on fedex vehicle for delivery"]),
   ("picked_up", ["picked up", "package received"]),
   ("in_transit", ["in transit", "departed", "arrived", "left fedex", "at fedex",
      "on the way", "at destination sort", "at local fedex", "in fedex",
      "international shipment release"]),
   ("in_customs", ["clearance", "customs", "import", "broker"]),
   ("exception", ["exception"]),
   ("delayed", ["delay"]),
   ("on_hold", ["hold"]),
   ("delivery_attempted", ["delivery attempt", "unable to deliver"]),
   ("returned_to_sender", ["return"]),
   ("cancelled", ["cancel"])]

/-- Modelled from the spec: "first group with any phrase found wins". -/
def firstMatch (groups : List (String × List String)) (dl : String) : Option String :=
  match groups with
  | [] => none
  | g :: rest => if anyTerm g.2 dl then some g.1 else firstMatch rest dl

/-- Modelled from the spec: the first keyword group of §4.1 matching the
lowered description, if any. -/
def firstMatchingGroup (desc_lower : String) : Option String :=
  firstMatch keywordGroups desc_lower

/-- Modelled from the spec: the status-code fallback table of §4.1 step 2,
with `"unknown"` when nothing matches. -/
def codeFallback (code_upper : String) : String :=
  if code_upper = "DL" then "delivered"
  else if code_upper = "OD" then "out_for_delivery"
  else if code_upper = "PU" then "picked_up"
  else if ["IT", "AA", "AR", "DP", "AF", "PM"].contains code_upper then "in_transit"
  else if ["DE", "SE", "OC"].contains code_upper then "exception"
  else if code_upper = "HL" then "on_hold"
  else if code_upper = "RS" then "returned_to_sender"
  else if code_upper = "CA" then "cancelled"
  else if code_upper = "CD" then "in_customs"
  else if ["IN", "SP", "PL"].contains code_upper then "label_created"
  else "unknown"

/-- An anomaly for rule `r` occurs in the list. -/
def hasRule (r : String) (l : List Anomaly) : Prop := ∃ a ∈ l, a.rule = r

instance (r : String) (l : List Anomaly) : Decidable (hasRule r l) :=
  decidable_of_iff (∃ a ∈ l, a.rule = r) Iff.rfl

theorem countBusinessDays_eq_range' (s e : Nat) :
    countBusinessDays s e = ((List.range' s (e - s)).filter (fun d => weekday d < 5)).length := by
  unfold countBusinessDays
  rw [List.countP_eq_length_filter, List.range'_eq_map_range]
  rw [← List.countP_eq_length_filter, ← List.countP_eq_length_filter, List.countP_map]
  rfl

theorem hasRule_append (r : String) (l₁ l₂ : List Anomaly) :
    hasRule r (l₁ ++ l₂) ↔ hasRule r l₁ ∨ hasRule r l₂ := by
  simp [hasRule, List.mem_append, or_and_right, exists_or]

theorem length_ite_singleton {α : Type} (c : Prop) [Decidable c] (x : α) :
    (if c then [x] else []).length ≤ 1 := by
  by_cases h : c <;> simp [h]

theorem ruleExceptionSeg_ne (status tracking fedex : String) (h : status ≠ "exception") :
    ruleExceptionSeg status tracking fedex = [] := by
  simp [ruleExceptionSeg, h]

theorem ruleTransitSeg_ne (now : PyDateTime) (th : Thresholds) (status tracking : String)
    (sd : Option DateVal) (h : status ≠ "in_transit") :
    ruleTransitSeg now th status tracking sd = [] := by
  simp [ruleTransitSeg, h]

theorem ruleReturnedSeg_ne (status tracking fedex : String) (h : status ≠ "returned_to_sender") :
    ruleReturnedSeg status tracking fedex = [] := by
  simp [ruleReturnedSeg, h]

theorem ruleAttemptSeg_ne (now : PyDateTime) (th : Thresholds) (status tracking : String)
    (lc : Option DateVal) (h : status ≠ "delivery_attempted") :
    ruleAttemptSeg now th status tracking lc = [] := by
  simp [ruleAttemptSeg, h]

theorem ruleCustomsSeg_ne (now : PyDateTime) (th : Thresholds) (status tracking : String)
    (lc : Option DateVal) (h : status ≠ "in_customs") :
    ruleCustomsSeg now th status tracking lc = [] := by
  simp [ruleCustomsSeg, h]

theorem ruleLabelSeg_ne (now : PyDateTime) (th : Thresholds) (status tracking : String)
    (ld : Option DateVal) (h : status ≠ "label_created") :
    ruleLabelSeg now th status tracking ld = [] := by
  simp [ruleLabelSeg, h]

theorem ruleExceptionSeg_length (status tracking fedex : String) :
    (ruleExceptionSeg status tracking fedex).length ≤ 1 := by
  unfold ruleExceptionSeg; split <;> simp

theorem ruleTransitSeg_length (now : PyDateTime) (th : Thresholds) (status tracking : String)
    (sd : Option DateVal) : (ruleTransitSeg now th status tracking sd).length ≤ 1 := by
  unfold ruleTransitSeg
  repeat' split
  all_goals first
  | exact length_ite_singleton _ _
  | simp

theorem ruleReturnedSeg_length (status tracking fedex : String) :
    (ruleReturnedSeg status tracking fedex).length ≤ 1 := by
  unfold ruleReturnedSeg; split <;> simp

theorem ruleAttemptSeg_length (now : PyDateTime) (th : Thresholds) (status tracking : String)
    (lc : Option DateVal) : (ruleAttemptSeg now th status tracking lc).length ≤ 1 := by
  unfold ruleAttemptSeg
  repeat' split
  all_goals first
  | exact length_ite_singleton _ _
  | simp

theorem ruleCustomsSeg_length (now : PyDateTime) (th : Thresholds) (status tracking : String)
    (lc : Option DateVal) : (ruleCustomsSeg now th status tracking lc).length ≤ 1 := by
  unfold ruleCustomsSeg
  repeat' split
  all_goals first
  | exact length_ite_singleton _ _
  | simp

theorem ruleLabelSeg_length (now : PyDateTime) (th : Thresholds) (status tracking : String)
    (ld : Option DateVal) : (ruleLabelSeg now th status tracking ld).length ≤ 1 := by
  unfold ruleLabelSeg
  repeat' split
  all_goals first
  | exact length_ite_singleton _ _
  | simp

theorem check_shipment_length (now : PyDateTime) (th : Thresholds) (s : Shipment) :
    (check_shipment now th s).length ≤ 1 := by
  unfold check_shipment
  by_cases hg : statusOf s = "delivered" ∨ s.is_delivered = true
  · simp [hg]
  · rw [if_neg hg]
    by_cases h1 : statusOf s = "exception"
    · rw [ruleTransitSeg_ne, ruleReturnedSeg_ne, ruleAttemptSeg_ne, ruleCustomsSeg_ne,
        ruleLabelSeg_ne]
      · simpa using ruleExceptionSeg_length (statusOf s) (s.tracking_number.getD "N/A")
          (s.fedex_status.getD "N/A")
      all_goals simp [h1]
    · rw [ruleExceptionSeg_ne _ _ _ h1]
      by_cases h2 : statusOf s = "in_transit"
      · rw [ruleReturnedSeg_ne, ruleAttemptSeg_ne, ruleCustomsSeg_ne, ruleLabelSeg_ne]
        · simpa using ruleTransitSeg_length now th (statusOf s)
            (s.tracking_number.getD "N/A") s.ship_date
        all_goals simp [h2]
      · rw [ruleTransitSeg_ne _ _ _ _ _ h2]
        by_cases h3 : statusOf s = "returned_to_sender"
        · rw [ruleAttemptSeg_ne, ruleCustomsSeg_ne, ruleLabelSeg_ne]
          · simpa using ruleReturnedSeg_length (statusOf s) (s.tracking_number.getD "N/A")
              (s.fedex_status.getD "N/A")
          all_goals simp [h3]
        · rw [ruleReturnedSeg_ne _ _ _ h3]
          by_cases h4 : statusOf s = "delivery_attempted"
          · rw [ruleCustomsSeg_ne, ruleLabelSeg_ne]
            · simpa using ruleAttemptSeg_length now th (statusOf s)
                (s.tracking_number.getD "N/A") s.last_status_change
            all_goals simp [h4]
          · rw [ruleAttemptSeg_ne _ _ _ _ _ h4]
            by_cases h5 : statusOf s = "in_customs"
            · rw [ruleLabelSeg_ne]
              · simpa using ruleCustomsSeg_length now th (statusOf s)
                  (s.tracking_number.getD "N/A") s.last_status_change
              · simp [h5]
            · rw [ruleCustomsSeg_ne _ _ _ _ _ h5]
              simpa using ruleLabelSeg_length now th (statusOf s)
                (s.tracking_number.getD "N/A") s.label_creation_date

/-- C1: a shipment whose normalized status is `"delivered"` or whose
`is_delivered` flag is truthy makes `check_shipment` return `[]`, whatever
the other fields hold; no rule is evaluated. -/
theorem delivered_gate (now : PyDateTime) (th : Thresholds) (s : Shipment)
    (h : statusOf s = "delivered" ∨ s.is_delivered = true) :
    check_shipment now th s = [] := by
  unfold check_shipment
  rcases h with h | h <;> simp [h]

/-- C1 witness: a delivered shipment (both flags set) with stale dates on
every date field yields no anomalies. -/
theorem delivered_gate_witness :
    check_shipment ⟨2024, 6, 3, 12, 0, 0, 0, some (-5)⟩ {}
      { sonia_status := some "Delivered", is_delivered := true,
        ship_date := some (.str "2020-01-02"),
        last_status_change := some (.str "2020-01-02"),
        label_creation_date := some (.str "2020-01-02") } = [] :=
  delivered_gate _ _ _ (Or.inl (by decide))

/-- C7: one `check_shipment` call returns at most one anomaly, and in
particular emits each rule at most once, since the six rules are guarded by
pairwise distinct normalized-status values. -/
theorem at_most_one_rule (now : PyDateTime) (th : Thresholds) (s : Shipment) :
    (check_shipment now th s).length ≤ 1 ∧
    ∀ r : String, ((check_shipment now th s).filter (fun a => a.rule == r)).length ≤ 1 :=
  ⟨check_shipment_length now th s,
   fun _ => le_trans (List.length_filter_le _ _) (check_shipment_length now th s)⟩

/-- C9: `check_all_shipments` is the order-preserving flat concatenation of
the per-shipment results, each anomaly enriched with the originating
shipment's `client_id`, `client_name` and `id`; the empty batch yields `[]`. -/
theorem check_all_concat (now : PyDateTime) (th : Thresholds) :
    (∀ shipments : List Shipment, check_all_shipments now th shipments =
      (shipments.map (fun sh => (check_shipment now th sh).map (enrich sh))).flatten) ∧
    check_all_shipments now th [] = [] := by
  constructor
  · intro shipments
    induction shipments with
    | nil => rfl
    | cons s rest ih => simp [check_all_shipments, ih]
  · rfl

/-- C3 counterexample: from Saturday 2024-01-06 (ordinal 738891) to Monday
2024-01-08 (ordinal 738893) the detector counts 0 business days, while the
claimed start-exclusive/end-inclusive count is 1. -/
theorem business_days_boundary_counterexample :
    toOrdinal 2024 1 6 = 738891 ∧ toOrdinal 2024 1 8 = 738893 ∧
    738891 < 738893 ∧ countBusinessDays 738891 738893 = 0 ∧
    specBusinessDays 738891 738893 = 1 := by decide

/-- C3 amended: the detector's business-day count is the number of calendar
days `d` with `start ≤ d < end` (start included, end excluded) whose weekday
is Monday–Friday; from Friday 2024-01-05 to Monday 2024-01-08 it is 1 (the
Friday). -/
theorem business_days_start_inclusive :
    (∀ s e : Nat, countBusinessDays s e =
      ((List.range' s (e - s)).filter (fun d => weekday d < 5)).length) ∧
    countBusinessDays (toOrdinal 2024 1 5) (toOrdinal 2024 1 8) = 1 :=
  ⟨countBusinessDays_eq_range', by decide⟩

theorem hasRule_nil (r : String) : ¬ hasRule r [] := by simp [hasRule]

theorem hasRule_ite_singleton (r : String) (c : Prop) [Decidable c] (a : Anomaly) :
    hasRule r (if c then [a] else []) ↔ c ∧ a.rule = r := by
  by_cases h : c <;> simp [h, hasRule]

theorem hasRule_ruleExceptionSeg (r status tracking fedex : String) :
    hasRule r (ruleExceptionSeg status tracking fedex) ↔
      r = "exception_detected" ∧ status = "exception" := by
  unfold ruleExceptionSeg
  rw [hasRule_ite_singleton]
  constructor
  · rintro ⟨h, hr⟩
    exact ⟨hr.symm, h⟩
  · rintro ⟨hr, h⟩
    exact ⟨h, hr.symm⟩

theorem hasRule_ruleReturnedSeg (r status tracking fedex : String) :
    hasRule r (ruleReturnedSeg status tracking fedex) ↔
      r = "returned_to_sender" ∧ status = "returned_to_sender" := by
  unfold ruleReturnedSeg
  rw [hasRule_ite_singleton]
  constructor
  · rintro ⟨h, hr⟩
    exact ⟨hr.symm, h⟩
  · rintro ⟨hr, h⟩
    exact ⟨h, hr.symm⟩

theorem hasRule_ruleTransitSeg (r : String) (now : PyDateTime) (th : Thresholds)
    (status tracking : String) (sd : Option DateVal) :
    hasRule r (ruleTransitSeg now th status tracking sd) ↔
      r = "transit_too_long" ∧ status = "in_transit" ∧
      ∃ d, parse_date sd = some d ∧ th.transit_days < count_business_days d now := by
  unfold ruleTransitSeg
  split
  case isFalse h => simp [hasRule, h]
  case isTrue h =>
    split
    case h_1 x d heq =>
      rw [hasRule_ite_singleton]
      simp only [heq, Option.some.injEq, h, true_and]
      constructor
      · rintro ⟨hc, hr⟩
        exact ⟨hr.symm, d, rfl, hc⟩
      · rintro ⟨hr, d', hd', hc⟩
        exact ⟨hd' ▸ hc, hr.symm⟩
    case h_2 heq => simp [hasRule, heq, h]

theorem hasRule_ruleAttemptSeg (r : String) (now : PyDateTime) (th : Thresholds)
    (status tracking : String) (lc : Option DateVal) :
    hasRule r (ruleAttemptSeg now th status tracking lc) ↔
      r = "delivery_attempted_stuck" ∧ status = "delivery_attempted" ∧
      ∃ d, parse_date lc = some d ∧ (th.delivery_attempt_days : Int) < deltaDays now d := by
  unfold ruleAttemptSeg
  split
  case isFalse h => simp [hasRule, h]
  case isTrue h =>
    split
    case h_1 x d heq =>
      rw [hasRule_ite_singleton]
      simp only [heq, Option.some.injEq, h, true_and]
      constructor
      · rintro ⟨hc, hr⟩
        exact ⟨hr.symm, d, rfl, hc⟩
      · rintro ⟨hr, d', hd', hc⟩
        exact ⟨hd' ▸ hc, hr.symm⟩
    case h_2 heq => simp [hasRule, heq, h]

theorem hasRule_ruleCustomsSeg (r : String) (now : PyDateTime) (th : Thresholds)
    (status tracking : String) (lc : Option DateVal) :
    hasRule r (ruleCustomsSeg now th status tracking lc) ↔
      r = "customs_too_long" ∧ status = "in_customs" ∧
      ∃ d, parse_date lc = some d ∧ th.customs_days < count_business_days d now := by
  unfold ruleCustomsSeg
  split
  case isFalse h => simp [hasRule, h]
  case isTrue h =>
    split
    case h_1 x d heq =>
      rw [hasRule_ite_singleton]
      simp only [heq, Option.some.injEq, h, true_and]
      constructor
      · rintro ⟨hc, hr⟩
        exact ⟨hr.symm, d, rfl, hc⟩
      · rintro ⟨hr, d', hd', hc⟩
        exact ⟨hd' ▸ hc, hr.symm⟩
    case h_2 heq => simp [hasRule, heq, h]

theorem hasRule_ruleLabelSeg (r : String) (now : PyDateTime) (th : Thresholds)
    (status tracking : String) (ld : Option DateVal) :
    hasRule r (ruleLabelSeg now th status tracking ld) ↔
      r = "label_no_movement" ∧ status = "label_created" ∧
      ∃ d, parse_date ld = some d ∧ (th.label_no_movement_days : Int) < deltaDays now d := by
  unfold ruleLabelSeg
  split
  case isFalse h => simp [hasRule, h]
  case isTrue h =>
    split
    case h_1 x d heq =>
      rw [hasRule_ite_singleton]
      simp only [heq, Option.some.injEq, h, true_and]
      constructor
      · rintro ⟨hc, hr⟩
        exact ⟨hr.symm, d, rfl, hc⟩
      · rintro ⟨hr, d', hd', hc⟩
        exact ⟨hd' ▸ hc, hr.symm⟩
    case h_2 heq => simp [hasRule, heq, h]

theorem is_delivered_false_of_not_gate {s : Shipment}
    (hg : ¬(statusOf s = "delivered" ∨ s.is_delivered = true)) : s.is_delivered = false := by
  rcases Bool.eq_false_or_eq_true s.is_delivered with h | h
  · exact absurd (Or.inr h) hg
  · exact h

theorem hasRule_check (r : String) (now : PyDateTime) (th : Thresholds) (s : Shipment) :
    hasRule r (check_shipment now th s) ↔
      ¬(statusOf s = "delivered" ∨ s.is_delivered = true) ∧
      ((r = "exception_detected" ∧ statusOf s = "exception") ∨
       (r = "transit_too_long" ∧ statusOf s = "in_transit" ∧
        ∃ d, parse_date s.ship_date = some d ∧
          th.transit_days < count_business_days d now) ∨
       (r = "returned_to_sender" ∧ statusOf s = "returned_to_sender") ∨
       (r = "delivery_attempted_stuck" ∧ statusOf s = "delivery_attempted" ∧
        ∃ d, parse_date s.last_status_change = some d ∧
          (th.delivery_attempt_days : Int) < deltaDays now d) ∨
       (r = "customs_too_long" ∧ statusOf s = "in_customs" ∧
        ∃ d, parse_date s.last_status_change = some d ∧
          th.customs_days < count_business_days d now) ∨
       (r = "label_no_movement" ∧ statusOf s = "label_created" ∧
        ∃ d, parse_date s.label_creation_date = some d ∧
          (th.label_no_movement_days : Int) < deltaDays now d)) := by
  unfold check_shipment
  by_cases hg : statusOf s = "delivered" ∨ s.is_delivered = true
  · simp [hg, hasRule]
  · rw [if_neg hg]
    rw [hasRule_append, hasRule_append, hasRule_append, hasRule_append, hasRule_append]
    rw [hasRule_ruleExceptionSeg, hasRule_ruleTransitSeg, hasRule_ruleReturnedSeg,
      hasRule_ruleAttemptSeg, hasRule_ruleCustomsSeg, hasRule_ruleLabelSeg]
    simp only [hg, not_false_iff, true_and, or_assoc]

/-- C2: each timed rule fires iff its measured quantity strictly exceeds its
threshold (equality never fires); concretely, with `transit_days = 5` and
now = Monday 2024-01-15, an `in_transit` shipment shipped Monday 2024-01-08
(exactly 5 business days) raises nothing, and one shipped Friday 2024-01-05
(one business day further back, 6) raises `transit_too_long`. -/
theorem threshold_strictness (now : PyDateTime) (th : Thresholds) (s : Shipment) :
    ((hasRule "transit_too_long" (check_shipment now th s) ↔
      s.is_delivered = false ∧ statusOf s = "in_transit" ∧
      ∃ d, parse_date s.ship_date = some d ∧
        th.transit_days < count_business_days d now) ∧
    (hasRule "delivery_attempted_stuck" (check_shipment now th s) ↔
      s.is_delivered = false ∧ statusOf s = "delivery_attempted" ∧
      ∃ d, parse_date s.last_status_change = some d ∧
        (th.delivery_attempt_days : Int) < deltaDays now d) ∧
    (hasRule "customs_too_long" (check_shipment now th s) ↔
      s.is_delivered = false ∧ statusOf s = "in_customs" ∧
      ∃ d, parse_date s.last_status_change = some d ∧
        th.customs_days < count_business_days d now) ∧
    (hasRule "label_no_movement" (check_shipment now th s) ↔
      s.is_delivered = false ∧ statusOf s = "label_created" ∧
      ∃ d, parse_date s.label_creation_date = some d ∧
        (th.label_no_movement_days : Int) < deltaDays now d)) ∧
    check_shipment ⟨2024, 1, 15, 12, 0, 0, 0, some (-5)⟩ ⟨5, 5, 2, 5⟩
      { sonia_status := some "in_transit", tracking_number := some "T1",
        ship_date := some (.str "2024-01-08") } = [] ∧
    hasRule "transit_too_long" (check_shipment ⟨2024, 1, 15, 12, 0, 0, 0, some (-5)⟩
      ⟨5, 5, 2, 5⟩
      { sonia_status := some "in_transit", tracking_number := some "T1",
        ship_date := some (.str "2024-01-05") }) := by
  refine ⟨⟨?_, ?_, ?_, ?_⟩, by decide, by decide⟩
  · rw [hasRule_check]
    constructor
    · rintro ⟨hg, hd⟩
      rcases hd with ⟨hr, _⟩ | ⟨_, hst, hex⟩ | ⟨hr, _⟩ | ⟨hr, _⟩ | ⟨hr, _⟩ | ⟨hr, _⟩
      · exact absurd hr (by decide)
      · exact ⟨is_delivered_false_of_not_gate hg, hst, hex⟩
      all_goals exact absurd hr (by decide)
    · rintro ⟨hd, hst, hex⟩
      refine ⟨?_, Or.inr (Or.inl ⟨rfl, hst, hex⟩)⟩
      rintro (h | h)
      · rw [hst] at h
        exact absurd h (by decide)
      · rw [hd] at h
        exact absurd h (by decide)
  · rw [hasRule_check]
    constructor
    · rintro ⟨hg, hd⟩
      rcases hd with ⟨hr, _⟩ | ⟨hr, _⟩ | ⟨hr, _⟩ | ⟨_, hst, hex⟩ | ⟨hr, _⟩ | ⟨hr, _⟩
      · exact absurd hr (by decide)
      · exact absurd hr (by decide)
      · exact absurd hr (by decide)
      · exact ⟨is_delivered_false_of_not_gate hg, hst, hex⟩
      all_goals exact absurd hr (by decide)
    · rintro ⟨hd, hst, hex⟩
      refine ⟨?_, Or.inr (Or.inr (Or.inr (Or.inl ⟨rfl, hst, hex⟩)))⟩
      rintro (h | h)
      · rw [hst] at h
        exact absurd h (by decide)
      · rw [hd] at h
        exact absurd h (by decide)
  · rw [hasRule_check]
    constructor
    · rintro ⟨hg, hd⟩
      rcases hd with ⟨hr, _⟩ | ⟨hr, _⟩ | ⟨hr, _⟩ | ⟨hr, _⟩ | ⟨_, hst, hex⟩ | ⟨hr, _⟩
      · exact absurd hr (by decide)
      · exact absurd hr (by decide)
      · exact absurd hr (by decide)
      · exact absurd hr (by decide)
      · exact ⟨is_delivered_false_of_not_gate hg, hst, hex⟩
      · exact absurd hr (by decide)
    · rintro ⟨hd, hst, hex⟩
      refine ⟨?_, Or.inr (Or.inr (Or.inr (Or.inr (Or.inl ⟨rfl, hst, hex⟩))))⟩
      rintro (h | h)
      · rw [hst] at h
        exact absurd h (by decide)
      · rw [hd] at h
        exact absurd h (by decide)
  · rw [hasRule_check]
    constructor
    · rintro ⟨hg, hd⟩
      rcases hd with ⟨hr, _⟩ | ⟨hr, _⟩ | ⟨hr, _⟩ | ⟨hr, _⟩ | ⟨hr, _⟩ | ⟨_, hst, hex⟩
      · exact absurd hr (by decide)
      · exact absurd hr (by decide)
      · exact absurd hr (by decide)
      · exact absurd hr (by decide)
      · exact absurd hr (by decide)
      · exact ⟨is_delivered_false_of_not_gate hg, hst, hex⟩
    · rintro ⟨hd, hst, hex⟩
      refine ⟨?_, Or.inr (Or.inr (Or.inr (Or.inr (Or.inr ⟨rfl, hst, hex⟩))))⟩
      rintro (h | h)
      · rw [hst] at h
        exact absurd h (by decide)
      · rw [hd] at h
        exact absurd h (by decide)

/-- C4: when a timed rule's guarding status holds but its date field is
absent or unparseable (`parse_date` returns `none`), that rule emits no
anomaly and evaluation is total — no error path exists. -/
theorem missing_date_silence (now : PyDateTime) (th : Thresholds) (s : Shipment) :
    (parse_date s.ship_date = none →
      ¬ hasRule "transit_too_long" (check_shipment now th s)) ∧
    (parse_date s.last_status_change = none →
      ¬ hasRule "delivery_attempted_stuck" (check_shipment now th s) ∧
      ¬ hasRule "customs_too_long" (check_shipment now th s)) ∧
    (parse_date s.label_creation_date = none →
      ¬ hasRule "label_no_movement" (check_shipment now th s)) := by
  refine ⟨fun hp hmem => ?_, fun hp => ⟨fun hmem => ?_, fun hmem => ?_⟩, fun hp hmem => ?_⟩
  all_goals
    rw [hasRule_check] at hmem
    obtain ⟨-, hd⟩ := hmem
    rcases hd with ⟨hr, _⟩ | ⟨hr, _, d, hpd, _⟩ | ⟨hr, _⟩ | ⟨hr, _, d, hpd, _⟩ |
      ⟨hr, _, d, hpd, _⟩ | ⟨hr, _, d, hpd, _⟩ <;>
    first
    | exact absurd hr (by decide)
    | exact Option.noConfusion (hp ▸ hpd)

/-- C4 witness: an `in_customs` shipment with `last_status_change` absent
yields no `customs_too_long` anomaly. -/
theorem missing_date_silence_witness :
    ¬ hasRule "customs_too_long" (check_shipment ⟨2024, 1, 15, 12, 0, 0, 0, some (-5)⟩ {}
      { sonia_status := some "in_customs", tracking_number := some "T2" }) :=
  ((missing_date_silence _ _ _).2.1 (by rfl)).2

theorem anyTerm_singleton (t hay : String) : anyTerm [t] hay = containsSub t hay := by
  simp [anyTerm]

theorem ite_some_getD {α : Type} (c : Prop) [Decidable c] (a : α) (o : Option α) (dflt : α) :
    (if c then some a else o).getD dflt = if c then a else o.getD dflt := by
  split <;> rfl

set_option maxHeartbeats 1000000 in
theorem get_sonia_status_spec (code desc : String) :
    get_sonia_status code desc =
      (firstMatchingGroup (if desc = "" then "" else pyLower desc)).getD
        (codeFallback (if code = "" then "" else pyUpper code)) := by
  simp only [get_sonia_status, firstMatchingGroup, keywordGroups, firstMatch, anyTerm_singleton,
    codeFallback]
  simp only [ite_some_getD, Option.getD_none]

theorem codeFallback_mem_soniaStatuses (cu : String) : codeFallback cu ∈ soniaStatuses := by
  unfold codeFallback
  split_ifs <;> simp [soniaStatuses]

theorem firstMatch_mem (groups : List (String × List String)) (dl s : String)
    (h : firstMatch groups dl = some s) : s ∈ groups.map Prod.fst := by
  induction groups with
  | nil => exact Option.noConfusion h
  | cons g rest ih =>
    rw [firstMatch] at h
    by_cases hc : anyTerm g.2 dl = true
    · rw [if_pos hc] at h
      simp [← Option.some.inj h]
    · rw [if_neg hc] at h
      simp [ih h]

/-- C5: with a non-empty description, the normalizer returns the first
keyword group (in the fixed §4.1 priority sequence) containing a matching
phrase, before any status-code lookup; in particular
`get_sonia_status "" "International shipment release at origin"` is
`"in_transit"`, not `"returned_to_sender"`. -/
theorem normalizer_priority :
    (∀ code desc : String, get_sonia_status code desc =
      (firstMatchingGroup (if desc = "" then "" else pyLower desc)).getD
        (codeFallback (if code = "" then "" else pyUpper code))) ∧
    get_sonia_status "" "International shipment release at origin" = "in_transit" :=
  ⟨get_sonia_status_spec, by decide⟩

/-- C6: the normalizer is total into the closed 13-value enum; when no
description keyword matches it falls back to the case-insensitive code
table, and `"unknown"` otherwise; `"DL"` maps to `"delivered"`, `"XX"` to
`"unknown"`. -/
theorem normalizer_totality :
    (∀ code desc : String, get_sonia_status code desc ∈ soniaStatuses) ∧
    (∀ code desc : String,
      firstMatchingGroup (if desc = "" then "" else pyLower desc) = none →
      get_sonia_status code desc = codeFallback (if code = "" then "" else pyUpper code)) ∧
    get_sonia_status "DL" "" = "delivered" ∧
    get_sonia_status "XX" "" = "unknown" := by
  refine ⟨fun code desc => ?_, fun code desc h => ?_, by decide, by decide⟩
  · rw [get_sonia_status_spec]
    rcases hf : firstMatchingGroup (if desc = "" then "" else pyLower desc) with _ | s
    · simpa using codeFallback_mem_soniaStatuses (if code = "" then "" else pyUpper code)
    · have hm := firstMatch_mem keywordGroups _ s hf
      have hsub : ∀ x ∈ keywordGroups.map Prod.fst, x ∈ soniaStatuses := by decide
      simpa using hsub s hm
  · rw [get_sonia_status_spec, h]
    rfl

/-- C6 witness: a description matching no keyword group falls through to
the code table. -/
theorem normalizer_totality_witness :
    get_sonia_status "HL" "sin novedades" =
      codeFallback (if ("HL" : String) = "" then "" else pyUpper "HL") :=
  normalizer_totality.2.1 "HL" "sin novedades" (by decide)

/-- C10: every string `_parse_date` accepts — the `"Z"`-suffixed (UTC)
timestamp formats included — comes back with `tzinfo` set to the fixed
UTC-5 zone: a UTC-marked timestamp is reinterpreted as UTC-5 wall time, not
converted; concretely `"2025-03-10T12:00:00Z"` keeps wall time 12:00 with
offset -5. -/
theorem parse_date_tz_reinterpretation :
    (∀ (str : String) (d : PyDateTime),
      parse_date (some (.str str)) = some d → d.tz = some (-5)) ∧
    parse_date (some (.str "2025-03-10T12:00:00Z")) =
      some ⟨2025, 3, 10, 12, 0, 0, 0, some (-5)⟩ := by
  refine ⟨fun str d h => ?_, by decide⟩
  simp only [parse_date] at h
  by_cases he : str = ""
  · rw [if_pos he] at h
    exact Option.noConfusion h
  · rw [if_neg he] at h
    repeat' split at h
    all_goals first
    | (obtain rfl := Option.some.inj h; rfl)
    | exact Option.noConfusion h

/-- C10 witness: the `"Z"` timestamp parses and carries the UTC-5 offset. -/
theorem parse_date_tz_witness :
    (⟨2025, 3, 10, 12, 0, 0, 0, some (-5)⟩ : PyDateTime).tz = some (-5) :=
  parse_date_tz_reinterpretation.1 "2025-03-10T12:00:00Z" _ (by decide)

/-- C8: the detector's business-day counter and the Excel module's disagree:
from Monday 2024-01-01 (ordinal 738886) to Saturday 2024-01-06 (ordinal
738891) they return 5 and 4 — the boundary day is counted at opposite ends. -/
theorem business_day_counters_differ :
    countBusinessDays 738886 738891 = 5 ∧
    excelBusinessDays (some 738886) (some 738891) = 4 ∧
    countBusinessDays 738886 738891 = excelBusinessDays (some 738886) (some 738891) + 1 := by
  decide

end Sonia
